import Mathlib

/-!
Verification development for the LeadGen outreach-mail generator.

The repository has two Python sources: `app.py` (website audit, email
composition, scheduling UI, batch CSV processing) and `scheduler.py`
(the background dispatch process draining the `scheduled_emails` table).
This file gives a shallow embedding of the logic those files implement
and proves or refutes the specification claims about it.

Modelling conventions:
* Python strings are Lean `String`s; all string primitives used by the
  code (`lower`, `in` substring test, `startswith`, slicing, `len`,
  `join`, `replace`) are re-implemented structurally over `String.data`
  so that every definition evaluates inside the kernel.
* Timestamps are the `"%Y-%m-%d %H:%M:%S"`-formatted strings the code
  actually stores and compares; both SQLite TEXT comparison and Python
  `datetime` comparison on such values coincide with lexicographic
  character order, embedded as `strLe`.
* SQLite tables are lists of rows; `SELECT ... WHERE` is `List.filter`,
  `UPDATE ... WHERE id = ?` is a `List.map` that rewrites matching rows,
  `INSERT` is an append.
* Python's process-seeded builtin `hash` is an explicit parameter
  `pyhash : String → Nat` of the composer (`hash(s) % 4` in the source
  becomes `pyhash s % 4`).
* The SMTP transport (`send_email`) is a parameter
  `transport : recipient → subject → body → Bool × String`, matching the
  `(success, message)` pair the Python helper returns.
-/

/-! ### String primitives (structural re-implementations of the Python built-ins) -/

/-- Python `s.lower()` (the texts involved are ASCII). -/
def strLower (s : String) : String := ⟨s.data.map Char.toLower⟩

/-- Helper for substring search: does `needle` occur in the list? -/
def infixAux (needle : List Char) : List Char → Bool
  | [] => needle.isEmpty
  | l@(_ :: rest) => needle.isPrefixOf l || infixAux needle rest

/-- Python `needle in hay` substring containment. -/
def strContains (hay needle : String) : Bool := infixAux needle.data hay.data

/-- Python `s.startswith(p)`. -/
def strStartsWith (s p : String) : Bool := p.data.isPrefixOf s.data

/-- Python `s[:n]` character slicing. -/
def strTake (s : String) (n : Nat) : String := ⟨s.data.take n⟩

/-- Python `len(s)`. -/
def strLen (s : String) : Nat := s.data.length

/-- Lexicographic character-list comparison; byte order on ASCII data. -/
def charListLe : List Char → List Char → Bool
  | [], _ => true
  | _ :: _, [] => false
  | a :: as, b :: bs => if a = b then charListLe as bs else decide (a < b)

/-- Timestamp comparison: SQLite `<=` on TEXT and Python `datetime <=`
both agree with this on `"%Y-%m-%d %H:%M:%S"`-formatted values. -/
def strLe (a b : String) : Bool := charListLe a.data b.data

/-- Python `sep.join(parts)`. -/
def joinSep (sep : String) : List String → String
  | [] => ""
  | [s] => s
  | s :: rest => s ++ sep ++ joinSep sep rest

/-- Python `s.replace(chr(10), chr(32))` as used on email bodies. -/
def replaceNewlines (s : String) : String :=
  ⟨s.data.map (fun c => if c = '\n' then ' ' else c)⟩

/-- Python `s.rstrip(chr(46))`: drop trailing dots. -/
def rstripDots (s : String) : String :=
  ⟨(s.data.reverse.dropWhile (fun c => c == '.')).reverse⟩

/-- Python `s.capitalize()`: first character upper-cased, rest lower-cased. -/
def pyCapitalize (s : String) : String :=
  match s.data with
  | [] => ""
  | c :: rest => ⟨c.toUpper :: rest.map Char.toLower⟩

/-! ### Website analysis (`app.py`, `analyze_website`) -/

def value_words : List String :=
  ["help", "solve", "achieve", "result", "outcome", "benefit", "save", "grow", "increase"]

def cta_words : List String :=
  ["contact", "call", "schedule", "book", "get started", "free quote", "request", "consultation"]

def trust_words : List String :=
  ["years", "experience", "certified", "guarantee", "testimonial", "review", "client", "trusted", "award"]

def diff_words : List String :=
  ["unique", "only", "different", "unlike", "specialized", "exclusive", "proprietary"]

def contact_words : List String :=
  ["email", "phone", "@", "call us"]

/-- Python `any(word in text for word in words)`. -/
def hasAny (words : List String) (text : String) : Bool :=
  words.any (fun w => strContains text w)

def sentenceValueProp : String :=
  "Homepage describes services but does not communicate clear outcomes or benefits for clients."

def sentenceCta : String :=
  "No clear call-to-action guiding visitors to take the next step."

def sentenceTrust : String :=
  "Missing trust signals like testimonials, certifications, or experience indicators."

def sentenceDiff : String :=
  "Services section lists offerings without explaining what sets the business apart."

def sentenceSparse : String :=
  "Homepage content is too sparse to communicate value effectively."

def sentenceDense : String :=
  "Homepage is text-heavy without clear hierarchy, making it hard to scan quickly."

def sentenceContact : String :=
  "Contact information is not prominently visible in the main content."

def sentenceServices : String :=
  "No dedicated services section explaining what the business offers."

/-- Embedding of `analyze_website` from `app.py`: seven checks run in source order on the
lower-cased concatenation of homepage and services text, each failing check
appending its sentence, result truncated to four issues. -/
def analyze_website (company_name website_url niche homepage_text services_text : String) :
    List String :=
  let combined_text := strLower (homepage_text ++ " " ++ services_text)
  let issues : List String := []
  let issues := if hasAny value_words combined_text then issues else issues ++ [sentenceValueProp]
  let issues := if hasAny cta_words combined_text then issues else issues ++ [sentenceCta]
  let issues := if hasAny trust_words combined_text then issues else issues ++ [sentenceTrust]
  let issues := if !hasAny diff_words combined_text && !(services_text == "") then
      issues ++ [sentenceDiff] else issues
  let issues := if strLen homepage_text < 200 then issues ++ [sentenceSparse]
    else if strLen homepage_text > 2500 then issues ++ [sentenceDense] else issues
  let issues := if hasAny contact_words combined_text then issues else issues ++ [sentenceContact]
  let issues := if services_text == "" && !strContains combined_text "service" then
      issues ++ [sentenceServices] else issues
  issues.take 4

/-- Modelled from the spec, section 4.2: the seven checks of the issue
detector written as an ordered concatenation of per-check contributions
(value-prop, CTA, trust, differentiation, length, contact, services), used
to compare `analyze_website` against the specified check order. -/
def spec_issue_list (homepage_text services_text : String) : List String :=
  let combined_text := strLower (homepage_text ++ " " ++ services_text)
  (if hasAny value_words combined_text then [] else [sentenceValueProp]) ++
  (if hasAny cta_words combined_text then [] else [sentenceCta]) ++
  (if hasAny trust_words combined_text then [] else [sentenceTrust]) ++
  (if !hasAny diff_words combined_text && !(services_text == "") then [sentenceDiff] else []) ++
  (if strLen homepage_text < 200 then [sentenceSparse]
   else if strLen homepage_text > 2500 then [sentenceDense] else []) ++
  (if hasAny contact_words combined_text then [] else [sentenceContact]) ++
  (if services_text == "" && !strContains combined_text "service" then [sentenceServices] else [])

/-! ### Issue keys and the email composer (`app.py`) -/

/-- The eight canonical defect keys of `ISSUE_DATA`. -/
inductive IssueKey
  | value_prop
  | cta
  | trust
  | differentiation
  | sparse
  | dense
  | contact
  | services
deriving DecidableEq, Fintype

/-- Embedding of `ISSUE_DATA` from `app.py`: `(statement, impact)` per key. -/
def ISSUE_DATA : IssueKey → String × String
  | .value_prop =>
      ("The homepage explains what you do but not what clients get out of it",
       "which makes it easy to scroll past")
  | .cta =>
      ("There is no obvious next step for someone ready to reach out",
       "and that friction costs inquiries")
  | .trust =>
      ("There are no testimonials or proof of past work",
       "so new leads have little reason to trust the business")
  | .differentiation =>
      ("Services are listed but nothing explains what makes you different",
       "which weakens your position against competitors")
  | .sparse =>
      ("The homepage does not say enough to build confidence",
       "so people leave before understanding the value")
  | .dense =>
      ("There is a lot of text but no clear structure",
       "which buries the key points")
  | .contact =>
      ("Contact info is hard to find",
       "adding friction for anyone ready to reach out")
  | .services =>
      ("There is no clear section explaining what you offer",
       "leaving scope unclear")

/-- Embedding of `COMBINED_ISSUES` from `app.py`: hand-authored narratives for six
ordered key pairs. -/
def COMBINED_ISSUES : List ((IssueKey × IssueKey) × String) :=
  [((.value_prop, .cta),
    "The homepage explains what you do but not the outcomes. There is also no clear next step. That combination makes it easy for leads to leave without acting."),
   ((.value_prop, .trust),
    "The homepage focuses on services but not results, and there is no proof of past work. Both of those make it harder for someone new to reach out."),
   ((.cta, .trust),
    "There is no obvious way to take the next step, and no testimonials to back up the claims. That tends to cost inquiries."),
   ((.trust, .differentiation),
    "The site lacks proof of past work, and nothing explains what sets you apart. That makes the decision harder for anyone evaluating options."),
   ((.sparse, .cta),
    "The homepage is thin on content and there is no clear call to action. People are leaving before they even consider reaching out."),
   ((.dense, .cta),
    "There is a lot of text without structure, and no obvious next step. The key points get buried.")]

/-- Python `COMBINED_ISSUES.get((k1, k2))`: dictionary lookup on the ordered pair. -/
def lookupCombined (k1 k2 : IssueKey) : Option String :=
  (COMBINED_ISSUES.find? (fun e => e.1.1 == k1 && e.1.2 == k2)).map (fun e => e.2)

/-- Embedding of `map_issue_to_key` from `app.py`: ordered substring predicates over the
lower-cased issue sentence, first match wins. -/
def map_issue_to_key (issue : String) : Option IssueKey :=
  let issue_lower := strLower issue
  if strContains issue_lower "outcome" || strContains issue_lower "benefit" ||
     strContains issue_lower "value" then some .value_prop
  else if strContains issue_lower "call-to-action" || strContains issue_lower "cta" ||
     strContains issue_lower "next step" then some .cta
  else if strContains issue_lower "trust" || strContains issue_lower "testimonial" ||
     strContains issue_lower "credential" then some .trust
  else if strContains issue_lower "differentiation" || strContains issue_lower "sets" ||
     strContains issue_lower "apart" then some .differentiation
  else if strContains issue_lower "sparse" || strContains issue_lower "too brief" ||
     strContains issue_lower "too short" then some .sparse
  else if strContains issue_lower "text-heavy" || strContains issue_lower "hierarchy" ||
     strContains issue_lower "dense" then some .dense
  else if strContains issue_lower "contact" then some .contact
  else if strContains issue_lower "services section" || strContains issue_lower "dedicated" then
     some .services
  else none

/-- The key-collection loop of `generate_email`: walk the (at most four)
issues, keep first-seen distinct keys, stop at two. -/
def collectKeys : List String → List IssueKey → List IssueKey
  | [], acc => acc
  | issue :: rest, acc =>
    if acc.length ≥ 2 then acc
    else
      match map_issue_to_key issue with
      | some k => if acc.contains k then collectKeys rest acc else collectKeys rest (acc ++ [k])
      | none => collectKeys rest acc

/-- The list `mapped_keys` as computed by `generate_email` over `issues[:4]`. -/
def mapped_keys (issues : List String) : List IssueKey :=
  collectKeys (issues.take 4) []

/-- The issue-narrative selection of `generate_email` (reached only with a
non-empty issue list): fallback echo for zero mapped keys, single
statement+impact for one, combined-table lookup (forward then reversed)
or synthesized concatenation for two. -/
def issue_text (issues : List String) : String :=
  match mapped_keys issues with
  | [] => rstripDots (issues.headD "") ++ ". That could be affecting how leads perceive the business."
  | [k1] => (ISSUE_DATA k1).1 ++ ", " ++ (ISSUE_DATA k1).2 ++ "."
  | k1 :: k2 :: _ =>
    match lookupCombined k1 k2 with
    | some s => s
    | none =>
      match lookupCombined k2 k1 with
      | some s => s
      | none =>
        (ISSUE_DATA k1).1 ++ ", " ++ (ISSUE_DATA k1).2 ++ ". Also, " ++
          strLower (ISSUE_DATA k2).1 ++ ", " ++ (ISSUE_DATA k2).2 ++ "."

/-- The `openings` pool of `generate_email`. -/
def openings (company_name : String) : List String :=
  ["Looked at " ++ company_name ++ "\x27s site. There are a couple of things worth addressing.",
   "Went through " ++ company_name ++ "\x27s website. Two things could use attention.",
   "Checked out " ++ company_name ++ "\x27s site. Couple of quick notes.",
   "Looked at " ++ company_name ++ "\x27s website earlier. Worth flagging two things."]

/-- The `ctas` pool of `generate_email`. -/
def ctas : List String :=
  ["I can outline what I would fix first.",
   "Happy to send a short list of priorities.",
   "I can share a quick breakdown of changes.",
   "I have specific ideas if useful."]

/-- The `subjects` pool of `generate_email`. -/
def subjects (company_name : String) : List String :=
  ["Quick thought on " ++ company_name,
   "Re: " ++ company_name,
   "Your website",
   company_name]

/-- The `contexts` pool of `generate_email`. -/
def contexts (niche : String) : List String :=
  ["In " ++ niche ++ ", first impressions close deals.",
   "Most " ++ niche ++ " leads decide fast. Clarity wins.",
   pyCapitalize niche ++ " clients reach out to whoever looks credible.",
   "Speed and trust matter in " ++ niche ++ "."]

/-- Embedding of `generate_email` from `app.py`. `pyhash` stands for Python's builtin
`hash` on strings, which is seeded per process; every use in the source is
`hash(...) % len(pool)` with pools of length four. -/
def generate_email (pyhash : String → Nat) (company_name niche : String)
    (issues : List String) : String × String :=
  let opening := (openings company_name).getD
      (pyhash company_name % (openings company_name).length) ""
  let cta := ctas.getD (pyhash (company_name ++ niche) % ctas.length) ""
  let subject := (subjects company_name).getD
      (pyhash company_name % (subjects company_name).length) ""
  let context := (contexts niche).getD
      (pyhash (company_name ++ niche) % (contexts niche).length) ""
  if issues == [] then
    (subject,
     "Hi,\n\n" ++ opening ++
     "\n\nThe foundation is there, but the messaging could work harder to convert interest into inquiries.\n\n" ++
     context ++ "\n\n" ++ cta ++ "\n\nBest")
  else
    (subject,
     "Hi,\n\n" ++ opening ++ "\n\n" ++ issue_text issues ++ "\n\n" ++
     context ++ "\n\n" ++ cta ++ "\n\nBest")

/-! ### The scheduled-email store and dispatch coordinator (`scheduler.py`, `app.py`) -/

/-- A row of the `scheduled_emails` table. -/
structure ScheduledEmail where
  id : Nat
  recipient : String
  subject : String
  body : String
  company_name : String
  website : String
  niche : String
  scheduled_time : String
  status : String
  created_at : String
deriving DecidableEq

/-- A row of the `email_log` table. -/
structure EmailLogEntry where
  timestamp : String
  company_name : String
  website : String
  contact_email : String
  niche : String
  subject : String
  body : String
  status : String
  notes : String
deriving DecidableEq

/-- The durable state shared by producer and coordinator, plus the
observable trace of SMTP delivery attempts (`send_email` calls). -/
structure DB where
  scheduled_emails : List ScheduledEmail
  email_log : List EmailLogEntry
  deliveries : List (String × String × String)
deriving DecidableEq

/-- The due query of `process_scheduled_emails`:
`SELECT ... WHERE scheduled_time <= now AND status = 'Pending'`. -/
def listDue (rows : List ScheduledEmail) (now : String) : List ScheduledEmail :=
  rows.filter (fun r => strLe r.scheduled_time now && r.status == "Pending")

/-- The status update of `process_scheduled_emails`:
`UPDATE scheduled_emails SET status = ? WHERE id = ?` (unconditional on the
current status). -/
def transition (rows : List ScheduledEmail) (email_id : Nat) (new_status : String) :
    List ScheduledEmail :=
  rows.map (fun r => if r.id = email_id then { r with status := new_status } else r)

/-- The per-email body of the loop in `process_scheduled_emails`: attempt
delivery, overwrite the row status with `Sent` or `Failed: msg`, append the
audit-log entry. Timestamps written by the loop are abstracted to the poll
instant `now`. -/
def process_email (transport : String → String → String → Bool × String)
    (now : String) (db : DB) (e : ScheduledEmail) : DB :=
  let res := transport e.recipient e.subject e.body
  let new_status := if res.1 then "Sent" else "Failed: " ++ res.2
  { scheduled_emails := transition db.scheduled_emails e.id new_status,
    email_log := db.email_log ++
      [{ timestamp := now, company_name := e.company_name, website := e.website,
         contact_email := e.recipient, niche := e.niche, subject := e.subject,
         body := e.body,
         status := if res.1 then "Yes (Scheduled)" else "Failed (Scheduled)",
         notes := if res.1 then "" else res.2 }],
    deliveries := db.deliveries ++ [(e.recipient, e.subject, e.body)] }

/-- Sequential processing of a fetched batch of due rows. -/
def process_due (transport : String → String → String → Bool × String)
    (now : String) (db : DB) (due : List ScheduledEmail) : DB :=
  due.foldl (process_email transport now) db

/-- One poll of `process_scheduled_emails`: fetch the due rows, process
them, return the new state and the processed count. -/
def process_scheduled_emails (transport : String → String → String → Bool × String)
    (now : String) (db : DB) : DB × Nat :=
  let due := listDue db.scheduled_emails now
  (process_due transport now db due, due.length)

/-- Two coordinator instances interleaved so that both run the due query
against the same state before either writes — the schedule SQLite permits,
since the `SELECT` carries no claim and the `UPDATE` is unconditional. -/
def interleaved_polls (transportA transportB : String → String → String → Bool × String)
    (now : String) (db : DB) : DB :=
  let dueA := listDue db.scheduled_emails now
  let dueB := listDue db.scheduled_emails now
  process_due transportB now (process_due transportA now db dueA) dueB

/-! ### The producer-side scheduling path (`app.py`) -/

/-- Embedding of `schedule_email_db` from `app.py`: insert one `Pending` row. `next_id`
models the SQLite autoincrement key, `now` the `created_at` timestamp. -/
def schedule_email_db (recipient_email subject body scheduled_datetime
    company_name website niche now : String) (next_id : Nat)
    (rows : List ScheduledEmail) : List ScheduledEmail :=
  rows ++ [{ id := next_id, recipient := recipient_email, subject := subject,
             body := body, company_name := company_name, website := website,
             niche := niche, scheduled_time := scheduled_datetime,
             status := "Pending", created_at := now }]

/-- Outcome surfaced by the schedule-button handler. -/
inductive ScheduleClickResult
  | notApproved
  | missingRecipient
  | notFuture
  | scheduled (t : String)
deriving DecidableEq

/-- The `schedule_clicked` handler in `app.py`: reject unless approved,
reject a missing recipient, reject `scheduled_datetime <= now`, otherwise
insert via `schedule_email_db`. -/
def schedule_clicked_handler (approved : Bool)
    (recipient_email subject body scheduled_datetime now company_name website niche : String)
    (next_id : Nat) (rows : List ScheduledEmail) :
    List ScheduledEmail × ScheduleClickResult :=
  if !approved then (rows, .notApproved)
  else if recipient_email == "" then (rows, .missingRecipient)
  else if strLe scheduled_datetime now then (rows, .notFuture)
  else (schedule_email_db recipient_email subject body scheduled_datetime
          company_name website niche now next_id rows,
        .scheduled scheduled_datetime)

/-! ### Batch CSV processing (`app.py`) -/

/-- Behaviour of the text-fetch collaborator for one row: either
`scrape_website_text` returns a pair (on internal failure the first
component is the `"Error scraping: ..."` marker string), or the call
itself raises. -/
inductive FetchBehavior
  | returns (homepage_text services_text : String)
  | raises (msg : String)
deriving DecidableEq

/-- One input row of the uploaded CSV. -/
structure BatchInputRow where
  company_name : String
  website_url : String
  niche : String
  contact_email : String
  fetch : FetchBehavior
deriving DecidableEq

/-- One output row of the results table. -/
structure BatchOutputRow where
  company_name : String
  website : String
  contact_email : String
  niche : String
  scrape_status : String
  issues_found : String
  subject_line : String
  email_body : String
deriving DecidableEq

/-- The v1.1 URL normalization in the batch loop. -/
def normalize_url (u : String) : String :=
  if !(u == "") && !(strStartsWith u "http://" || strStartsWith u "https://") then
    "https://" ++ u
  else u

/-- The scrape section of the batch loop: produces the homepage text,
services text and `Scrape Status` column. Note that in the error-marker
branch the returned texts are kept; only the exception branch resets them
to empty strings. -/
def batch_texts_status (web_url : String) (fetch : FetchBehavior) :
    String × String × String :=
  if web_url == "" then ("", "", "No URL")
  else
    match fetch with
    | .returns hp srv =>
      if !(hp == "") && !strStartsWith hp "Error" then (hp, srv, "Success")
      else if !(hp == "") then (hp, srv, "Failed: " ++ strTake hp 50)
      else (hp, srv, "Empty response")
    | .raises msg => ("", "", "Error: " ++ strTake msg 50)

/-- The `Issues Found` column: issues joined with a delimiter, or the
literal `None detected`. -/
def issues_found_column (issues : List String) : String :=
  if !(issues == []) then joinSep " | " issues else "None detected"

/-- One iteration of the batch loop in `app.py` (progress display and rate
limiting omitted). -/
def process_batch_row (pyhash : String → Nat) (row : BatchInputRow) : BatchOutputRow :=
  let web_url := normalize_url row.website_url
  let t := batch_texts_status web_url row.fetch
  let issues := analyze_website row.company_name web_url row.niche t.1 t.2.1
  let se := generate_email pyhash row.company_name row.niche issues
  { company_name := row.company_name, website := web_url,
    contact_email := row.contact_email, niche := row.niche,
    scrape_status := t.2.2,
    issues_found := issues_found_column issues,
    subject_line := se.1,
    email_body := replaceNewlines se.2 }

/-- The whole batch loop: rows processed independently in order. -/
def process_batch (pyhash : String → Nat) (rows : List BatchInputRow) :
    List BatchOutputRow :=
  rows.map (process_batch_row pyhash)

/-! ### Helper lemmas -/

/-- A row whose id differs from the updated id survives `transition` unchanged. -/
theorem mem_transition_of_ne (rows : List ScheduledEmail) (i : Nat) (s : String)
    (r : ScheduledEmail) (hne : r.id ≠ i) (hr : r ∈ rows) : r ∈ transition rows i s := by
  have h2 := List.mem_map_of_mem
    (fun x : ScheduledEmail => if x.id = i then { x with status := s } else x) hr
  simpa [transition, hne] using h2

/-- Processing a batch of due rows none of which carries `r`'s id leaves
`r` in the table. -/
theorem mem_process_due_of_fresh (transport : String → String → String → Bool × String)
    (now : String) (ds : List ScheduledEmail) (db : DB) (r : ScheduledEmail)
    (h : ∀ d ∈ ds, d.id ≠ r.id) (hr : r ∈ db.scheduled_emails) :
    r ∈ (process_due transport now db ds).scheduled_emails := by
  induction ds generalizing db with
  | nil => simpa [process_due] using hr
  | cons d ds ih =>
    have hstep : r ∈ (process_email transport now db d).scheduled_emails := by
      simp only [process_email]
      exact mem_transition_of_ne _ _ _ _ (fun he => h d (by simp) he.symm) hr
    have hrw : process_due transport now db (d :: ds) =
        process_due transport now (process_email transport now db d) ds := by
      simp [process_due]
    rw [hrw]
    exact ih (process_email transport now db d)
      (fun x hx => h x (List.mem_cons_of_mem d hx)) hstep

/-! ### Claim theorems -/

/-- C2: `listDue(now)` returns exactly the rows that are still `Pending`
and whose `scheduled_time` is at or before `now`; in particular it never
returns a row scheduled strictly after `now` nor one already `Sent` or
`Failed`. -/
theorem listDue_mem_iff (rows : List ScheduledEmail) (now : String) (r : ScheduledEmail) :
    r ∈ listDue rows now ↔
      r ∈ rows ∧ strLe r.scheduled_time now = true ∧ r.status = "Pending" := by
  simp [listDue, List.mem_filter, Bool.and_eq_true]

/-- C10: the issue list computed by `analyze_website` depends only on the
homepage and services text; the company name, website URL and niche
arguments never influence it. -/
theorem analyze_website_depends_only_on_texts
    (c w n c2 w2 n2 homepage_text services_text : String) :
    analyze_website c w n homepage_text services_text =
      analyze_website c2 w2 n2 homepage_text services_text := rfl

/-- A `scheduled_emails` row that is already `Sent`. -/
def sentRow : ScheduledEmail :=
  { id := 1, recipient := "lead@example.com", subject := "S", body := "B",
    company_name := "Co", website := "w", niche := "n",
    scheduled_time := "2026-01-01 09:00:00", status := "Sent",
    created_at := "2025-12-31 00:00:00" }

/-- C1 counterexample: the store's status update is an unconditional
`UPDATE ... WHERE id = ?`, so invoking it on a row already in the terminal
state `Sent` silently overwrites that terminal status instead of being a
no-op or rejected. -/
theorem transition_overwrites_sent_status :
    (transition [sentRow] 1 "Failed: boom").map (fun r => r.status) = ["Failed: boom"] ∧
    sentRow.status = "Sent" := by decide

/-- C1 amended: `transition` itself overwrites any status, terminal or
not; the no-op guarantee for terminal rows holds only at the level of a
whole poll — assuming the table's ids are unique (the SQLite primary key),
a row already `Sent` or `Failed` when `process_scheduled_emails` starts is
left untouched by the poll, because the due query selects `Pending` rows
only. -/
theorem poll_preserves_terminal_rows
    (transport : String → String → String → Bool × String) (now : String) (db : DB)
    (hids : (db.scheduled_emails.map (fun r => r.id)).Nodup)
    (r : ScheduledEmail) (hr : r ∈ db.scheduled_emails) (hterm : r.status ≠ "Pending") :
    r ∈ (process_scheduled_emails transport now db).1.scheduled_emails := by
  have hdue : ∀ d ∈ listDue db.scheduled_emails now, d.id ≠ r.id := by
    intro d hd hid
    have hmem := (listDue_mem_iff db.scheduled_emails now d).mp hd
    have : d = r := List.inj_on_of_nodup_map hids hmem.1 hr hid
    exact hterm (this ▸ hmem.2.2)
  exact mem_process_due_of_fresh transport now _ db r hdue hr

/-- C1 witness. -/
theorem poll_preserves_terminal_rows_witness :
    sentRow ∈ ((process_scheduled_emails (fun _ _ _ => (true, "Sent successfully"))
      "2026-01-01 09:00:00"
      { scheduled_emails := [sentRow], email_log := [], deliveries := [] }).1).scheduled_emails :=
  poll_preserves_terminal_rows _ _ _ (by decide) sentRow (by decide) (by decide)

/-- C6: with an approved email and a recipient present, a requested send
time not strictly after `now` is rejected with no row written, while a
strictly-future time appends exactly one `Pending` row. -/
theorem schedule_clicked_future_precondition
    (recipient_email subject body scheduled_datetime now company_name website niche : String)
    (next_id : Nat) (rows : List ScheduledEmail)
    (hrec : (recipient_email == "") = false) :
    (strLe scheduled_datetime now = true →
      schedule_clicked_handler true recipient_email subject body scheduled_datetime now
        company_name website niche next_id rows = (rows, ScheduleClickResult.notFuture)) ∧
    (strLe scheduled_datetime now = false →
      schedule_clicked_handler true recipient_email subject body scheduled_datetime now
        company_name website niche next_id rows =
      (rows ++ [{ id := next_id, recipient := recipient_email, subject := subject,
                  body := body, company_name := company_name, website := website,
                  niche := niche, scheduled_time := scheduled_datetime,
                  status := "Pending", created_at := now }],
       ScheduleClickResult.scheduled scheduled_datetime)) := by
  constructor <;> intro h <;>
    simp [schedule_clicked_handler, schedule_email_db, hrec, h]

/-- C6 witness: a time one day ahead is accepted and stored `Pending`; the
same handler at a past-or-present time is covered by the first conjunct. -/
theorem schedule_clicked_future_precondition_witness :
    schedule_clicked_handler true "lead@example.com" "S" "B" "2026-10-13 09:00:00"
      "2026-10-12 00:00:00" "Co" "w" "n" 7 [] =
    ([{ id := 7, recipient := "lead@example.com", subject := "S", body := "B",
        company_name := "Co", website := "w", niche := "n",
        scheduled_time := "2026-10-13 09:00:00", status := "Pending",
        created_at := "2026-10-12 00:00:00" }],
     ScheduleClickResult.scheduled "2026-10-13 09:00:00") :=
  (schedule_clicked_future_precondition "lead@example.com" "S" "B" "2026-10-13 09:00:00"
    "2026-10-12 00:00:00" "Co" "w" "n" 7 [] (by decide)).2 (by decide)

/-- A due `Pending` row used in concrete scenarios. -/
def pendingRow : ScheduledEmail :=
  { id := 1, recipient := "lead@example.com", subject := "S", body := "B",
    company_name := "Co", website := "w", niche := "n",
    scheduled_time := "2026-01-01 09:00:00", status := "Pending",
    created_at := "2025-12-31 00:00:00" }

/-- A transport whose delivery always succeeds. -/
def okTransport : String → String → String → Bool × String :=
  fun _ _ _ => (true, "Sent successfully")

/-- C5 counterexample: when two coordinator instances both run the due
query before either writes, the single due `Pending` row is delivered and
logged twice — the read-then-transition sequence is not an atomic claim,
so the log gains two entries for the task, not exactly one. -/
theorem interleaved_polls_double_log :
    ((interleaved_polls okTransport okTransport "2026-01-01 09:00:00"
        { scheduled_emails := [pendingRow], email_log := [], deliveries := [] }).email_log.length = 2) ∧
    ¬ ((interleaved_polls okTransport okTransport "2026-01-01 09:00:00"
        { scheduled_emails := [pendingRow], email_log := [], deliveries := [] }).email_log.length = 1) := by
  decide

/-- C5 amended: the coordinator performs a plain read followed by later
unconditional writes; whenever two instances both observe the same due
`Pending` row before either transitions it, the interleaved execution
performs two delivery attempts and appends two log entries for that one
task, whatever either transport returns. Exactly-once holds only within a
single coordinator instance. -/
theorem interleaved_polls_duplicate_processing
    (tA tB : String → String → String → Bool × String) (now : String)
    (r : ScheduledEmail) (hp : r.status = "Pending")
    (hd : strLe r.scheduled_time now = true) :
    (interleaved_polls tA tB now
      { scheduled_emails := [r], email_log := [], deliveries := [] }).email_log.length = 2 ∧
    (interleaved_polls tA tB now
      { scheduled_emails := [r], email_log := [], deliveries := [] }).deliveries.length = 2 := by
  have hdue : listDue [r] now = [r] := by
    simp [listDue, List.filter, hp, hd]
  constructor <;>
    simp [interleaved_polls, hdue, process_due, process_email]

/-- C5 witness. -/
theorem interleaved_polls_duplicate_processing_witness :
    (interleaved_polls okTransport okTransport "2026-01-01 09:00:00"
      { scheduled_emails := [pendingRow], email_log := [], deliveries := [] }).email_log.length = 2 ∧
    (interleaved_polls okTransport okTransport "2026-01-01 09:00:00"
      { scheduled_emails := [pendingRow], email_log := [], deliveries := [] }).deliveries.length = 2 :=
  interleaved_polls_duplicate_processing okTransport okTransport "2026-01-01 09:00:00"
    pendingRow (by decide) (by decide)

set_option maxHeartbeats 2000000 in
/-- C4: `analyze_website` evaluates its seven checks in the fixed order
value-prop, CTA, trust, differentiation, length, contact, services, each
failing check contributing its fixed sentence, and returns the first four
sentences that fired in evaluation order — it equals the spec-ordered
check list truncated to four. -/
theorem analyze_website_eq_spec_checks
    (company_name website_url niche homepage_text services_text : String) :
    analyze_website company_name website_url niche homepage_text services_text =
      (spec_issue_list homepage_text services_text).take 4 := by
  unfold analyze_website spec_issue_list
  by_cases h1 : hasAny value_words (strLower (homepage_text ++ " " ++ services_text)) = true <;>
  by_cases h2 : hasAny cta_words (strLower (homepage_text ++ " " ++ services_text)) = true <;>
  by_cases h3 : hasAny trust_words (strLower (homepage_text ++ " " ++ services_text)) = true <;>
  by_cases h4 : (!hasAny diff_words (strLower (homepage_text ++ " " ++ services_text)) &&
      !(services_text == "")) = true <;>
  by_cases h5 : strLen homepage_text < 200 <;>
  by_cases h6 : strLen homepage_text > 2500 <;>
  by_cases h7 : hasAny contact_words (strLower (homepage_text ++ " " ++ services_text)) = true <;>
  by_cases h8 : (services_text == "" &&
      !strContains (strLower (homepage_text ++ " " ++ services_text)) "service") = true <;>
  simp [h1, h2, h3, h4, h5, h6, h7, h8]

/-- C8: evaluating `map_issue_to_key` on the eight exact sentences the
detector emits. Seven map to their canonical keys, but the sparse-content
sentence contains the word `value`, so the value-prop predicate (tested
first) captures it: it maps to `value_prop`, not `sparse`, breaking the
claimed lock-step for that sentence. -/
theorem map_issue_to_key_lockstep_eval :
    map_issue_to_key sentenceValueProp = some IssueKey.value_prop ∧
    map_issue_to_key sentenceCta = some IssueKey.cta ∧
    map_issue_to_key sentenceTrust = some IssueKey.trust ∧
    map_issue_to_key sentenceDiff = some IssueKey.differentiation ∧
    map_issue_to_key sentenceSparse = some IssueKey.value_prop ∧
    ¬ (map_issue_to_key sentenceSparse = some IssueKey.sparse) ∧
    map_issue_to_key sentenceDense = some IssueKey.dense ∧
    map_issue_to_key sentenceContact = some IssueKey.contact ∧
    map_issue_to_key sentenceServices = some IssueKey.services ∧
    map_issue_to_key "" = none := by decide

/-- C3 counterexample: `generate_email` reads Python's builtin `hash`,
which is seeded per process; two processes whose hashes differ on the
company name produce different subject/body pairs for identical
arguments, so the composer is not byte-stable across runs. -/
theorem generate_email_differs_across_hashes :
    generate_email (fun _ => 0) "Acme" "plumbing" [] ≠
      generate_email (fun _ => 1) "Acme" "plumbing" [] := by decide

/-- C3 amended: the composer is deterministic in (company, niche, issues)
once the process hash is fixed — its output depends on the hash function
only through the two values `hash(company)` and `hash(company + niche)` —
but because Python seeds `hash` per process, byte-identity is only
guaranteed within one process, not across runs. -/
theorem generate_email_det_of_hash_agree (h1 h2 : String → Nat)
    (company_name niche : String) (issues : List String)
    (hc : h1 company_name = h2 company_name)
    (hcn : h1 (company_name ++ niche) = h2 (company_name ++ niche)) :
    generate_email h1 company_name niche issues =
      generate_email h2 company_name niche issues := by
  unfold generate_email
  rw [hc, hcn]

/-- C3 witness. -/
theorem generate_email_det_of_hash_agree_witness :
    generate_email (fun _ => 1) "A" "" [] = generate_email (fun s => strLen s) "A" "" [] :=
  generate_email_det_of_hash_agree (fun _ => 1) (fun s => strLen s) "A" "" []
    (by decide) (by decide)

/-- The authored combined-issues table never contains both orders of the
same pair, so a reversed hit is never shadowed by a forward one. -/
theorem lookupCombined_not_both :
    ∀ k1 k2 : IssueKey, lookupCombined k1 k2 = none ∨ lookupCombined k2 k1 = none := by
  decide

/-- C7: when exactly two distinct keys are mapped, an authored
`COMBINED_ISSUES` entry for the pair — matched in either key order — is
used verbatim as the issue narrative, and only when neither order is
authored is the narrative synthesized as
`stmt1, impact1. Also, stmt2 lower-cased, impact2.`. -/
theorem combined_narrative_verbatim (issues : List String) (k1 k2 : IssueKey)
    (hmk : mapped_keys issues = [k1, k2]) :
    (∀ s, lookupCombined k1 k2 = some s ∨ lookupCombined k2 k1 = some s →
      issue_text issues = s) ∧
    (lookupCombined k1 k2 = none → lookupCombined k2 k1 = none →
      issue_text issues =
        (ISSUE_DATA k1).1 ++ ", " ++ (ISSUE_DATA k1).2 ++ ". Also, " ++
          strLower (ISSUE_DATA k2).1 ++ ", " ++ (ISSUE_DATA k2).2 ++ ".") := by
  constructor
  · intro s hs
    rcases hs with h | h
    · simp [issue_text, hmk, h]
    · have hfwd : lookupCombined k1 k2 = none := by
        rcases lookupCombined_not_both k1 k2 with h0 | h0
        · exact h0
        · rw [h0] at h; cases h
      simp [issue_text, hmk, hfwd, h]
  · intro hf hr
    simp [issue_text, hmk, hf, hr]

/-- C7 witness: the detector's CTA and density sentences map to the keys
(cta, dense); the table authors that pair in the reversed order
(dense, cta) and the authored sentence is used verbatim. -/
theorem combined_narrative_verbatim_witness :
    issue_text [sentenceCta, sentenceDense] =
      "There is a lot of text without structure, and no obvious next step. The key points get buried." :=
  (combined_narrative_verbatim [sentenceCta, sentenceDense] IssueKey.cta IssueKey.dense
    (by decide)).1 _ (Or.inr (by decide))

/-- Nonempty URLs stay nonempty under the v1.1 normalization. -/
theorem normalize_url_ne_empty (u : String) (hu : (u == "") = false) :
    (normalize_url u == "") = false := by
  obtain ⟨l⟩ := u
  unfold normalize_url
  split_ifs with h
  · rfl
  · exact hu

/-- The `scrape_website_text` error marker produced on an internal failure. -/
def errScrapeText : String :=
  "Error scraping: Invalid URL https://helpfulplumbers.example"

/-- C9 counterexample: a fetch that returns the error-marker string does
not degrade the row's audit to the empty-text path — the error string is
fed to `analyze_website` as homepage text (here its `help` substring
satisfies the value-proposition check), so the audited issues differ from
the empty-text audit that an in-loop exception (which does reset the texts)
would produce. -/
theorem error_string_not_degraded_to_empty :
    (process_batch_row (fun _ => 0)
      { company_name := "Acme", website_url := "https://helpfulplumbers.example",
        niche := "plumbing", contact_email := "",
        fetch := FetchBehavior.returns errScrapeText "" }).issues_found ≠
    (process_batch_row (fun _ => 0)
      { company_name := "Acme", website_url := "https://helpfulplumbers.example",
        niche := "plumbing", contact_email := "",
        fetch := FetchBehavior.raises "network down" }).issues_found := by decide

/-- C9 amended: for a row whose fetch returns an error-marker string, the
batch loop records `Failed:` plus the first 50 characters of the error
string in the Scrape Status column and keeps going (rows are processed
independently, so the batch length is preserved), but the audit analyzes
the error string itself as homepage text rather than degrading to the
empty-text path; only the exception branch resets the texts to empty. -/
theorem batch_error_row_behavior (pyhash : String → Nat)
    (company_name website_url niche contact_email homepage_text services_text : String)
    (hw : (website_url == "") = false)
    (hhp : (homepage_text == "") = false)
    (herr : strStartsWith homepage_text "Error" = true) :
    (process_batch_row pyhash
      { company_name := company_name, website_url := website_url, niche := niche,
        contact_email := contact_email,
        fetch := FetchBehavior.returns homepage_text services_text }).scrape_status =
      "Failed: " ++ strTake homepage_text 50 ∧
    (process_batch_row pyhash
      { company_name := company_name, website_url := website_url, niche := niche,
        contact_email := contact_email,
        fetch := FetchBehavior.returns homepage_text services_text }).issues_found =
      issues_found_column (analyze_website company_name (normalize_url website_url) niche
        homepage_text services_text) ∧
    ∀ rows : List BatchInputRow, (process_batch pyhash rows).length = rows.length := by
  have hw2 := normalize_url_ne_empty website_url hw
  refine ⟨?_, ?_, ?_⟩
  · simp [process_batch_row, batch_texts_status, hw2, hhp, herr]
  · simp [process_batch_row, batch_texts_status, hw2, hhp, herr]
  · intro rows
    simp [process_batch]

/-- C9 witness. -/
theorem batch_error_row_behavior_witness :
    (process_batch_row (fun _ => 0)
      { company_name := "Acme", website_url := "https://helpfulplumbers.example",
        niche := "plumbing", contact_email := "",
        fetch := FetchBehavior.returns errScrapeText "" }).scrape_status =
      "Failed: " ++ strTake errScrapeText 50 ∧
    (process_batch_row (fun _ => 0)
      { company_name := "Acme", website_url := "https://helpfulplumbers.example",
        niche := "plumbing", contact_email := "",
        fetch := FetchBehavior.returns errScrapeText "" }).issues_found =
      issues_found_column (analyze_website "Acme"
        (normalize_url "https://helpfulplumbers.example") "plumbing" errScrapeText "") ∧
    ∀ rows : List BatchInputRow, (process_batch (fun _ => 0) rows).length = rows.length :=
  batch_error_row_behavior (fun _ => 0) "Acme" "https://helpfulplumbers.example"
    "plumbing" "" errScrapeText "" (by decide) (by decide) (by decide)
